import Mathlib

/-!
Verification of the recurring-transaction engine of DjangoMoneyManagement
(`src/commands/process_recurring.py` together with the `RecurringTransaction`
and `Transaction` models of `src/api/models.py`).

Dates are embedded as (year, month, day) triples of naturals, ordered
lexicographically exactly as Python `datetime.date` orders them.
`date + timedelta(days=n)` is embedded as `n` iterations of a successor
function on valid calendar dates, and `date.replace(...)` — which raises
`ValueError` when the resulting triple is not a real calendar date — is
embedded as an `Option`-returning constructor.

`calculate_next_occurrence` is embedded line by line from the source.  Its
Python original can (a) return a date, (b) return `None` (unknown frequency
string), or (c) raise `ValueError` from a `date.replace` call; the embedding
returns `Except Unit (Option Date)` with `.error ()` for a raised exception.
Note that in the MONTHLY branch the `replace` calls at lines 80/82 of the
source sit *outside* the `try:` block (the `try` wraps only the plain
`return next_month`), so the `except ValueError` clamp there is dead code and
the exception propagates — the embedding reproduces this faithfully.

The management command `handle` is embedded as a pure pass over a list of
definitions threading the list of created `Transaction` rows and the
success/error tallies, with an oracle injecting store failures
(`Transaction.objects.create` raising, `recurring.save()` raising) per
definition id.
-/

structure Date where
  year : Nat
  month : Nat
  day : Nat
deriving DecidableEq, Repr

namespace Date

/-- Python compares `date` objects lexicographically on (year, month, day);
this is the strict comparison `<`. -/
def blt (a b : Date) : Bool :=
  decide (a.year < b.year) ||
    (decide (a.year = b.year) &&
      (decide (a.month < b.month) ||
        (decide (a.month = b.month) && decide (a.day < b.day))))

/-- Python `<=` on dates: lexicographic on (year, month, day). -/
def ble (a b : Date) : Bool :=
  decide (a.year < b.year) ||
    (decide (a.year = b.year) &&
      (decide (a.month < b.month) ||
        (decide (a.month = b.month) && decide (a.day ≤ b.day))))

end Date

/-- Gregorian leap-year rule, as implemented by Python's `calendar.isleap`
and used by `datetime.date` validity checks. -/
def isLeapYear (y : Nat) : Bool :=
  (decide (y % 4 = 0) && decide (y % 100 ≠ 0)) || decide (y % 400 = 0)

/-- Number of days in a month (`calendar.monthrange(y, m)[1]`); only
meaningful for `1 ≤ m ≤ 12`. -/
def daysInMonth (y m : Nat) : Nat :=
  if m = 2 then (if isLeapYear y then 29 else 28)
  else if m = 4 ∨ m = 6 ∨ m = 9 ∨ m = 11 then 30
  else 31

namespace Date

/-- A triple is a real calendar date (what `datetime.date` accepts). -/
def Valid (d : Date) : Prop :=
  1 ≤ d.month ∧ d.month ≤ 12 ∧ 1 ≤ d.day ∧ d.day ≤ daysInMonth d.year d.month

instance (d : Date) : Decidable d.Valid := by
  unfold Date.Valid; infer_instance

/-- Python `d.replace(year=y, month=m)` (keeping the day): returns the new
date, or `none` where Python raises `ValueError`. -/
def replaceYM (d : Date) (y m : Nat) : Option Date :=
  if (Date.mk y m d.day).Valid then some ⟨y, m, d.day⟩ else none

/-- Python `d.replace(year=y, month=m, day=dy)`: returns the new date, or
`none` where Python raises `ValueError`. -/
def replaceYMD (_d : Date) (y m dy : Nat) : Option Date :=
  if (Date.mk y m dy).Valid then some ⟨y, m, dy⟩ else none

/-- The day after `d`: embedding of `d + timedelta(days=1)` on valid dates. -/
def nextDay (d : Date) : Date :=
  if d.day < daysInMonth d.year d.month then ⟨d.year, d.month, d.day + 1⟩
  else if d.month < 12 then ⟨d.year, d.month + 1, 1⟩
  else ⟨d.year + 1, 1, 1⟩

/-- Embedding of `d + timedelta(days=n)`. -/
def addDays (d : Date) : Nat → Date
  | 0 => d
  | n + 1 => (addDays d n).nextDay

end Date

/-- The QUARTERLY try/except of `calculate_next_occurrence`
(src/commands/process_recurring.py lines 100–105) at the already-rolled-over
target `(year, month)`: `current_date.replace(year=year, month=month)`, and on
`ValueError` the clamp `replace(..., day=min(current_date.day, last_day))`. -/
def quarterly_step (current_date : Date) (year month : Nat) :
    Except Unit (Option Date) :=
  match current_date.replaceYM year month with
  | some d => .ok (some d)
  | none =>
      match current_date.replaceYMD year month
          (min current_date.day (daysInMonth year month)) with
      | some d => .ok (some d)
      | none => .error ()

/-- Embedding of `Command.calculate_next_occurrence`
(src/commands/process_recurring.py lines 67–113), applied to the
definition's `frequency` string and its `next_occurrence` date.
`.ok (some d)` = the function returns date `d`; `.ok none` = the function
falls through and returns `None`; `.error ()` = a `date.replace` call
raises `ValueError` which escapes the function. -/
def calculate_next_occurrence (frequency : String) (current_date : Date) :
    Except Unit (Option Date) :=
  if frequency = "DAILY" then
    .ok (some (current_date.addDays 1))
  else if frequency = "WEEKLY" then
    .ok (some (current_date.addDays 7))
  else if frequency = "BIWEEKLY" then
    .ok (some (current_date.addDays 14))
  else if frequency = "MONTHLY" then
    -- lines 79–82: the replace itself runs outside the try/except, so a
    -- ValueError raised here escapes; the dead `except ValueError` clamp
    -- (lines 87–91) is unreachable and has no counterpart.
    if current_date.month = 12 then
      match current_date.replaceYM (current_date.year + 1) 1 with
      | some next_month => .ok (some next_month)
      | none => .error ()
    else
      match current_date.replaceYM current_date.year (current_date.month + 1) with
      | some next_month => .ok (some next_month)
      | none => .error ()
  else if frequency = "QUARTERLY" then
    -- lines 93–99: month += 3, with year rollover when month > 12
    if current_date.month + 3 > 12 then
      quarterly_step current_date (current_date.year + 1) (current_date.month + 3 - 12)
    else
      quarterly_step current_date current_date.year (current_date.month + 3)
  else if frequency = "YEARLY" then
    -- lines 106–111
    match current_date.replaceYM (current_date.year + 1) current_date.month with
    | some d => .ok (some d)
    | none =>
        match current_date.replaceYMD (current_date.year + 1) current_date.month 28 with
        | some d => .ok (some d)
        | none => .error ()
  else
    .ok none

/-- Embedding of the `RecurringTransaction` model
(src/api/models.py lines 162–182); `amount` in fixed-point cents,
`frequency` the raw CharField string, `category` a nullable foreign key. -/
structure RecDef where
  id : Nat
  user : Nat
  amount : Int
  description : String
  category : Option Nat
  transaction_type : String
  frequency : String
  start_date : Date
  end_date : Option Date
  next_occurrence : Date
  is_active : Bool
deriving DecidableEq, Repr

/-- Embedding of the `Transaction` model rows created by the command
(src/api/models.py lines 22–39, fields set at
src/commands/process_recurring.py lines 26–35). -/
structure Txn where
  user : Nat
  amount : Int
  description : String
  category : Option Nat
  transaction_type : String
  date : Date
  notes : String
  is_recurring : Bool
deriving DecidableEq, Repr

/-- The `Transaction.objects.create(...)` call of handle
(src/commands/process_recurring.py lines 26–35). -/
def mkTxn (recurring : RecDef) : Txn :=
  { user := recurring.user
    amount := recurring.amount
    description := recurring.description
    category := recurring.category
    transaction_type := recurring.transaction_type
    date := recurring.next_occurrence
    notes := "Auto-generated from recurring transaction: " ++ toString recurring.id
    is_recurring := true }

/-- Store-failure oracle for one definition: `createFails` means
`Transaction.objects.create` raises; `saveFails` means `recurring.save()`
raises (so the row in the database keeps its old field values). -/
structure StoreFail where
  createFails : Bool
  saveFails : Bool
deriving DecidableEq, Repr

/-- Durable state: the recurring-definition rows and the transaction rows. -/
structure RecState where
  defs : List RecDef
  txns : List Txn
deriving DecidableEq, Repr

/-- Result of the `try:` body for one due definition
(src/commands/process_recurring.py lines 24–53): the definition row as it
stands in the store afterwards, the transaction row created (if the create
committed), and whether the body completed without an exception
(`processed_count` is incremented exactly on completion). -/
def processOne (fl : StoreFail) (recurring : RecDef) :
    RecDef × Option Txn × Bool :=
  if fl.createFails then
    -- Transaction.objects.create raises: nothing persisted, except-branch.
    (recurring, none, false)
  else
    let txn := mkTxn recurring
    match calculate_next_occurrence recurring.frequency recurring.next_occurrence with
    | .error _ =>
        -- calculate_next_occurrence raised ValueError after the create
        -- committed: the transaction row stays, the definition is untouched.
        (recurring, some txn, false)
    | .ok next_date =>
        let updated : RecDef :=
          match next_date with
          | some d =>
              match recurring.end_date with
              | none => { recurring with next_occurrence := d }
              | some e =>
                  if d.ble e then { recurring with next_occurrence := d }
                  else { recurring with is_active := false }
          | none => { recurring with is_active := false }
        if fl.saveFails then
          -- recurring.save() raises: the definition row keeps its old values,
          -- but the transaction row created above stays.
          (recurring, some txn, false)
        else
          (updated, some txn, true)

/-- The due filter of handle (src/commands/process_recurring.py lines 16–19):
`is_active=True, next_occurrence__lte=today`. -/
def isDue (today : Date) (r : RecDef) : Bool :=
  r.is_active && r.next_occurrence.ble today

/-- The report the command emits on stdout: the final
`Successfully processed N` count and the ids named in
`Error processing recurring transaction {id}` lines, in iteration order. -/
structure Report where
  processed_count : Nat
  errors : List Nat
deriving DecidableEq, Repr

/-- The `for recurring in due_recurring:` loop of handle
(src/commands/process_recurring.py lines 23–61) over the definition rows in
store order: non-due rows are untouched, each due row is processed by
`processOne` with its own store-failure flags.  Returns the definition rows
after the pass, the transaction rows created (in creation order), and the
report. -/
def runPass (today : Date) (fail : Nat → StoreFail) :
    List RecDef → List RecDef × List Txn × Report
  | [] => ([], [], ⟨0, []⟩)
  | r :: rest =>
      let tail := runPass today fail rest
      if isDue today r then
        let step := processOne (fail r.id) r
        (step.1 :: tail.1,
         step.2.1.toList ++ tail.2.1,
         if step.2.2 then
           ⟨tail.2.2.processed_count + 1, tail.2.2.errors⟩
         else
           ⟨tail.2.2.processed_count, r.id :: tail.2.2.errors⟩)
      else
        (r :: tail.1, tail.2.1, tail.2.2)

/-- Embedding of `Command.handle` (src/commands/process_recurring.py
lines 12–65) run at date `today` against state `st`, with `fail` injecting
per-definition store failures: the state after the pass and the report. -/
def handle (today : Date) (fail : Nat → StoreFail) (st : RecState) :
    RecState × Report :=
  let out := runPass today fail st.defs
  (⟨out.1, st.txns ++ out.2.1⟩, out.2.2)

/-- A pass with no injected store failures. -/
def noFail : Nat → StoreFail := fun _ => ⟨false, false⟩

/-! ### Order lemmas for the lexicographic date comparison -/

theorem Date.blt_iff {a b : Date} :
    a.blt b = true ↔
      a.year < b.year ∨
        (a.year = b.year ∧
          (a.month < b.month ∨ (a.month = b.month ∧ a.day < b.day))) := by
  simp [Date.blt]

theorem Date.ble_iff {a b : Date} :
    a.ble b = true ↔
      a.year < b.year ∨
        (a.year = b.year ∧
          (a.month < b.month ∨ (a.month = b.month ∧ a.day ≤ b.day))) := by
  simp [Date.ble]

theorem Date.ble_refl (a : Date) : a.ble a = true := by
  rw [Date.ble_iff]; omega

theorem Date.blt_trans {a b c : Date} (h1 : a.blt b = true)
    (h2 : b.blt c = true) : a.blt c = true := by
  rw [Date.blt_iff] at h1 h2 ⊢; omega

theorem Date.ble_blt_trans {a b c : Date} (h1 : a.ble b = true)
    (h2 : b.blt c = true) : a.ble c = true := by
  rw [Date.ble_iff] at h1 ⊢; rw [Date.blt_iff] at h2; omega

theorem Date.ble_eq_false_of_blt {a b : Date} (h : a.blt b = true) :
    b.ble a = false := by
  rw [Date.blt_iff] at h
  rw [Bool.eq_false_iff, Ne, Date.ble_iff]
  omega

theorem Date.blt_of_year_lt {a b : Date} (h : a.year < b.year) :
    a.blt b = true := by
  rw [Date.blt_iff]; omega

theorem Date.blt_of_month_lt {a b : Date} (hy : a.year = b.year)
    (h : a.month < b.month) : a.blt b = true := by
  rw [Date.blt_iff]; omega

theorem Date.blt_of_day_lt {a b : Date} (hy : a.year = b.year)
    (hm : a.month = b.month) (h : a.day < b.day) : a.blt b = true := by
  rw [Date.blt_iff]; omega

theorem Date.blt_nextDay (d : Date) : d.blt d.nextDay = true := by
  unfold Date.nextDay
  split_ifs with h1 h2
  · exact Date.blt_of_day_lt rfl rfl (Nat.lt_succ_self _)
  · exact Date.blt_of_month_lt rfl (Nat.lt_succ_self _)
  · exact Date.blt_of_year_lt (Nat.lt_succ_self _)

theorem Date.blt_addDays (d : Date) (n : Nat) :
    d.blt (d.addDays (n + 1)) = true := by
  induction n with
  | zero => exact d.blt_nextDay
  | succ k ih => exact Date.blt_trans ih (Date.blt_nextDay (d.addDays (k + 1)))

theorem Date.replaceYM_eq_some {d : Date} {y m : Nat} {e : Date}
    (h : d.replaceYM y m = some e) : e = ⟨y, m, d.day⟩ := by
  unfold Date.replaceYM at h
  split at h
  · injection h with h; exact h.symm
  · cases h

theorem Date.replaceYMD_eq_some {d : Date} {y m dy : Nat} {e : Date}
    (h : d.replaceYMD y m dy = some e) : e = ⟨y, m, dy⟩ := by
  unfold Date.replaceYMD at h
  split at h
  · injection h with h; exact h.symm
  · cases h

/-- Whenever the QUARTERLY try/except produces a date, it lands in the
requested target year and month. -/
theorem quarterly_step_eq_ok {d : Date} {y m : Nat} {e : Date}
    (h : quarterly_step d y m = .ok (some e)) : e.year = y ∧ e.month = m := by
  unfold quarterly_step at h
  split at h
  next x heq =>
    injection h with h; injection h with h; subst h
    obtain rfl := Date.replaceYM_eq_some heq
    exact ⟨rfl, rfl⟩
  next heq =>
    split at h
    next x heq2 =>
      injection h with h; injection h with h; subst h
      obtain rfl := Date.replaceYMD_eq_some heq2
      exact ⟨rfl, rfl⟩
    next heq2 => cases h

/-- Wherever `calculate_next_occurrence` returns a date at all, that date is
strictly after the input (the year or month strictly increases, or the day
does within the month) — no validity assumption on the input is needed. -/
theorem calc_blt (f : String) (d d' : Date)
    (h : calculate_next_occurrence f d = .ok (some d')) : d.blt d' = true := by
  unfold calculate_next_occurrence at h
  split_ifs at h
  · -- DAILY
    rw [Except.ok.injEq, Option.some.injEq] at h; subst h; exact d.blt_addDays 0
  · -- WEEKLY
    rw [Except.ok.injEq, Option.some.injEq] at h; subst h; exact d.blt_addDays 6
  · -- BIWEEKLY
    rw [Except.ok.injEq, Option.some.injEq] at h; subst h; exact d.blt_addDays 13
  · -- MONTHLY, December
    split at h
    next e heq =>
      rw [Except.ok.injEq, Option.some.injEq] at h; subst h
      obtain rfl := Date.replaceYM_eq_some heq
      exact Date.blt_of_year_lt (Nat.lt_succ_self _)
    next heq => cases h
  · -- MONTHLY, other months
    split at h
    next e heq =>
      rw [Except.ok.injEq, Option.some.injEq] at h; subst h
      obtain rfl := Date.replaceYM_eq_some heq
      exact Date.blt_of_month_lt rfl (Nat.lt_succ_self _)
    next heq => cases h
  · -- QUARTERLY with year rollover
    obtain ⟨hy, -⟩ := quarterly_step_eq_ok h
    exact Date.blt_of_year_lt (by omega)
  · -- QUARTERLY within the year
    obtain ⟨hy, hm⟩ := quarterly_step_eq_ok h
    exact Date.blt_of_month_lt hy.symm (by omega)
  · -- YEARLY
    split at h
    next e heq =>
      rw [Except.ok.injEq, Option.some.injEq] at h; subst h
      obtain rfl := Date.replaceYM_eq_some heq
      exact Date.blt_of_year_lt (Nat.lt_succ_self _)
    next heq =>
      split at h
      next e heq2 =>
        rw [Except.ok.injEq, Option.some.injEq] at h; subst h
        obtain rfl := Date.replaceYMD_eq_some heq2
        exact Date.blt_of_year_lt (Nat.lt_succ_self _)
      next heq2 => cases h
  · -- unknown frequency: returns None, not a date
    cases h

/-! ### Calendar helper lemmas -/

theorem daysInMonth_ne_two (y y2 m : Nat) (hm : m ≠ 2) :
    daysInMonth y m = daysInMonth y2 m := by
  simp [daysInMonth, hm]

theorem Date.not_valid_mk {y m dy : Nat} (h : ¬ (Date.mk y m dy).Valid) :
    ¬ (1 ≤ m ∧ m ≤ 12 ∧ 1 ≤ dy ∧ dy ≤ daysInMonth y m) := h

/-! ### Claim theorems -/

/-- C1: the spec says MONTHLY advancement clamps a day-of-month that does not
exist in the following month (2024-01-31 ↦ 2024-02-29, 2023-01-31 ↦
2023-02-28).  The code does not: `date.replace` at lines 80/82 runs outside
the `try:` (which wraps only the `return`), so the `except ValueError` clamp
is dead code and both inputs raise `ValueError` out of
`calculate_next_occurrence`.  The comments at lines 84 and 88 of the source
document the clamping intent, so this is a code bug. -/
theorem C1_monthly_month_end_raises :
    calculate_next_occurrence "MONTHLY" ⟨2024, 1, 31⟩ = .error () ∧
    calculate_next_occurrence "MONTHLY" ⟨2023, 1, 31⟩ = .error () :=
  ⟨rfl, rfl⟩

/-- C5: the spec says `AdvanceDate(d, f)` is defined (and strictly greater
than `d`) for every date and every frequency in the enum.  It is not total:
for MONTHLY from 2024-03-31 the target day 31 does not exist in April and the
un-guarded `date.replace` raises `ValueError` instead of returning a date.
(Where a date IS returned, it is strictly greater — see `calc_blt`.) -/
theorem C5_monthly_not_total :
    calculate_next_occurrence "MONTHLY" ⟨2024, 3, 31⟩ = .error () ∧
    ∀ d' : Date, calculate_next_occurrence "MONTHLY" ⟨2024, 3, 31⟩ ≠ .ok (some d') := by
  refine ⟨rfl, fun d' h => ?_⟩
  rw [(rfl : calculate_next_occurrence "MONTHLY" ⟨2024, 3, 31⟩ = .error ())] at h
  cases h

/-- C8: YEARLY advancement keeps month and day with the year incremented,
except that Feb 29 advanced into a non-leap target year is clamped to
Feb 28; in particular 2024-02-29 ↦ 2025-02-28. -/
theorem C8_yearly_leap_clamp (d : Date) (hv : d.Valid) :
    calculate_next_occurrence "YEARLY" d =
      .ok (some (if d.month = 2 ∧ d.day = 29 ∧ isLeapYear (d.year + 1) = false
                 then ⟨d.year + 1, 2, 28⟩
                 else ⟨d.year + 1, d.month, d.day⟩)) ∧
    calculate_next_occurrence "YEARLY" ⟨2024, 2, 29⟩ = .ok (some ⟨2025, 2, 28⟩) := by
  refine ⟨?_, rfl⟩
  have hred : calculate_next_occurrence "YEARLY" d =
      (match d.replaceYM (d.year + 1) d.month with
       | some x => .ok (some x)
       | none =>
           match d.replaceYMD (d.year + 1) d.month 28 with
           | some x => .ok (some x)
           | none => .error ()) := rfl
  rw [hred]
  obtain ⟨hm1, hm2, hd1, hd2⟩ := hv
  by_cases hval : (Date.mk (d.year + 1) d.month d.day).Valid
  · rw [show d.replaceYM (d.year + 1) d.month = some ⟨d.year + 1, d.month, d.day⟩ from
      by rw [Date.replaceYM, if_pos hval]]
    rw [if_neg]
    rintro ⟨hfeb, h29, hnl⟩
    obtain ⟨-, -, -, hv4⟩ := hval
    rw [hfeb, h29] at hv4
    simp only [daysInMonth, if_pos rfl, isLeapYear] at hv4 hnl
    rcases Nat.decEq ((d.year + 1) % 4) 0 with h4 | h4 <;> simp_all
  · rw [show d.replaceYM (d.year + 1) d.month = none from
      by rw [Date.replaceYM, if_neg hval]]
    have hfacts := Date.not_valid_mk hval
    -- the only way the target (year+1, month, day) is invalid is Feb 29
    -- into a non-leap year
    have hm : d.month = 2 := by
      by_contra hne
      exact hfacts ⟨hm1, hm2, hd1, by rw [← daysInMonth_ne_two d.year _ _ hne]; exact hd2⟩
    have hdim : daysInMonth d.year 2 = if isLeapYear d.year then 29 else 28 := by
      simp [daysInMonth]
    have hdim2 : daysInMonth (d.year + 1) 2 = if isLeapYear (d.year + 1) then 29 else 28 := by
      simp [daysInMonth]
    rw [hm] at hd2 hfacts
    rw [hdim] at hd2
    have hgt : daysInMonth (d.year + 1) 2 < d.day := by omega
    rw [hdim2] at hgt
    have hnl : isLeapYear (d.year + 1) = false := by
      cases hc : isLeapYear (d.year + 1)
      · rfl
      · rw [hc] at hgt
        simp at hgt
        split_ifs at hd2 <;> omega
    rw [hnl] at hgt
    simp at hgt
    have h29 : d.day = 29 := by split_ifs at hd2 <;> omega
    rw [hm]
    rw [show d.replaceYMD (d.year + 1) 2 28 = some ⟨d.year + 1, 2, 28⟩ from by
      rw [Date.replaceYMD, if_pos (by simp [Date.Valid, daysInMonth, hnl])]]
    rw [if_pos ⟨rfl, h29, hnl⟩]

/-- Witness for C8 at the concrete leap-day input 2024-02-29. -/
theorem C8_yearly_leap_clamp_witness :
    (Date.mk 2024 2 29).Valid ∧
    calculate_next_occurrence "YEARLY" ⟨2024, 2, 29⟩ = .ok (some ⟨2025, 2, 28⟩) :=
  ⟨by decide, (C8_yearly_leap_clamp ⟨2024, 2, 29⟩ (by decide)).2⟩

theorem Date.ble_false_iff {a b : Date} : a.ble b = false ↔ b.blt a = true := by
  rw [Bool.eq_false_iff, Ne, Date.ble_iff, Date.blt_iff]
  omega

/-- Whatever the advance step and save do, a due definition whose
`Transaction.objects.create` does not fail gets exactly one transaction row,
built by `mkTxn`. -/
theorem processOne_txn (fl : StoreFail) (r : RecDef)
    (hcf : fl.createFails = false) :
    (processOne fl r).2.1 = some (mkTxn r) := by
  unfold processOne
  rw [hcf]
  rcases hc : calculate_next_occurrence r.frequency r.next_occurrence with e | nd <;>
    simp only [Bool.false_eq_true, if_false]
  cases hsv : fl.saveFails <;> simp

/-- C9: the materialized transaction copies amount, description, category,
transaction kind and owner from the definition, carries the recurring flag
and a note naming the definition's id, and is dated `next_occurrence` — not
the processing date `today`, which `mkTxn` does not even consume. -/
theorem C9_materialized_fields (today : Date) (fail : Nat → StoreFail) (r : RecDef)
    (hdue : isDue today r = true) (hcf : (fail r.id).createFails = false) :
    (runPass today fail [r]).2.1 = [mkTxn r] ∧
    (mkTxn r).amount = r.amount ∧ (mkTxn r).description = r.description ∧
    (mkTxn r).category = r.category ∧
    (mkTxn r).transaction_type = r.transaction_type ∧
    (mkTxn r).user = r.user ∧ (mkTxn r).is_recurring = true ∧
    (mkTxn r).notes = "Auto-generated from recurring transaction: " ++ toString r.id ∧
    (mkTxn r).date = r.next_occurrence := by
  refine ⟨?_, rfl, rfl, rfl, rfl, rfl, rfl, rfl, rfl⟩
  simp [runPass, hdue, processOne_txn (fail r.id) r hcf]

/-- Witness for C9: a concrete due definition processed on a later date
(2024-01-05) still yields a transaction dated its own due date 2024-01-03. -/
theorem C9_materialized_fields_witness :
    (isDue ⟨2024, 1, 5⟩
        { id := 4, user := 2, amount := 1500, description := "salary",
          category := some 1, transaction_type := "INCOME",
          frequency := "MONTHLY", start_date := ⟨2023, 12, 3⟩,
          end_date := none, next_occurrence := ⟨2024, 1, 3⟩,
          is_active := true } = true) ∧
    (runPass ⟨2024, 1, 5⟩ noFail
        [{ id := 4, user := 2, amount := 1500, description := "salary",
           category := some 1, transaction_type := "INCOME",
           frequency := "MONTHLY", start_date := ⟨2023, 12, 3⟩,
           end_date := none, next_occurrence := ⟨2024, 1, 3⟩,
           is_active := true }]).2.1 =
      [mkTxn { id := 4, user := 2, amount := 1500, description := "salary",
               category := some 1, transaction_type := "INCOME",
               frequency := "MONTHLY", start_date := ⟨2023, 12, 3⟩,
               end_date := none, next_occurrence := ⟨2024, 1, 3⟩,
               is_active := true }] :=
  ⟨by decide,
   (C9_materialized_fields ⟨2024, 1, 5⟩ noFail
     { id := 4, user := 2, amount := 1500, description := "salary",
       category := some 1, transaction_type := "INCOME",
       frequency := "MONTHLY", start_date := ⟨2023, 12, 3⟩,
       end_date := none, next_occurrence := ⟨2024, 1, 3⟩,
       is_active := true } (by decide) rfl).1⟩

/-- C6: with a computed next date `d` in hand (lines 40–46 of the command),
the definition stays active with its cursor overwritten to `d` when there is
no `end_date` or when `d ≤ end_date` (the boundary `d = end_date` included);
only `d` strictly after `end_date` flips `is_active` to false, leaving the
cursor at its old value. -/
theorem C6_termination_boundary (r : RecDef) (d : Date)
    (hca : calculate_next_occurrence r.frequency r.next_occurrence = .ok (some d)) :
    (r.end_date = none →
       (processOne ⟨false, false⟩ r).1 = { r with next_occurrence := d }) ∧
    (∀ e : Date, r.end_date = some e → d.ble e = true →
       (processOne ⟨false, false⟩ r).1 = { r with next_occurrence := d }) ∧
    (∀ e : Date, r.end_date = some e → e.blt d = true →
       (processOne ⟨false, false⟩ r).1 = { r with is_active := false }) := by
  unfold processOne
  rw [hca]
  refine ⟨fun hend => ?_, fun e hend hle => ?_, fun e hend hgt => ?_⟩
  · rw [hend]; rfl
  · rw [hend]; simp [hle]
  · rw [hend]; simp [Date.ble_false_iff.mpr hgt]

/-- Witness for C6 at the spec's own boundary scenario: a WEEKLY definition
with `end_date = 2024-01-15` equal to the computed next date stays active
(inclusive boundary), exercised through the second conjunct. -/
theorem C6_termination_boundary_witness :
    (calculate_next_occurrence "WEEKLY" ⟨2024, 1, 8⟩ = .ok (some ⟨2024, 1, 15⟩)) ∧
    (processOne ⟨false, false⟩
        { id := 6, user := 1, amount := 20, description := "allowance",
          category := none, transaction_type := "EXPENSE",
          frequency := "WEEKLY", start_date := ⟨2024, 1, 1⟩,
          end_date := some ⟨2024, 1, 15⟩, next_occurrence := ⟨2024, 1, 8⟩,
          is_active := true }).1 =
      { id := 6, user := 1, amount := 20, description := "allowance",
        category := none, transaction_type := "EXPENSE",
        frequency := "WEEKLY", start_date := ⟨2024, 1, 1⟩,
        end_date := some ⟨2024, 1, 15⟩, next_occurrence := ⟨2024, 1, 15⟩,
        is_active := true } :=
  ⟨rfl,
   (C6_termination_boundary
     { id := 6, user := 1, amount := 20, description := "allowance",
       category := none, transaction_type := "EXPENSE",
       frequency := "WEEKLY", start_date := ⟨2024, 1, 1⟩,
       end_date := some ⟨2024, 1, 15⟩, next_occurrence := ⟨2024, 1, 8⟩,
       is_active := true } ⟨2024, 1, 15⟩ rfl).2.1 ⟨2024, 1, 15⟩ rfl (by decide)⟩

/-- C7: the pass touches exactly the rows passing the filter
`is_active=True, next_occurrence__lte=today`: an active definition due
exactly on `today` is processed (inclusive boundary), while one due
`today + 1 day` is left untouched — no row change, no transaction, empty
report. -/
theorem C7_due_selection (today : Date) (fail : Nat → StoreFail) (r : RecDef)
    (hact : r.is_active = true) :
    (r.next_occurrence = today →
       isDue today r = true ∧
       (runPass today fail [r]).1 = [(processOne (fail r.id) r).1]) ∧
    (r.next_occurrence = today.addDays 1 →
       isDue today r = false ∧ runPass today fail [r] = ([r], [], ⟨0, []⟩)) := by
  constructor
  · intro hnext
    have hdue : isDue today r = true := by
      unfold isDue
      rw [hact, hnext, Date.ble_refl]
      rfl
    exact ⟨hdue, by simp [runPass, hdue]⟩
  · intro hnext
    have hdue : isDue today r = false := by
      unfold isDue
      rw [hact, hnext, Date.ble_eq_false_of_blt (today.blt_addDays 0)]
      rfl
    exact ⟨hdue, by simp [runPass, hdue]⟩

/-- Witness for C7: both boundaries at `today = 2024-03-15`, with a
definition due that day and the same definition due the day after. -/
theorem C7_due_selection_witness :
    (isDue ⟨2024, 3, 15⟩
        { id := 2, user := 1, amount := 40, description := "net",
          category := none, transaction_type := "EXPENSE",
          frequency := "DAILY", start_date := ⟨2024, 3, 1⟩,
          end_date := none, next_occurrence := ⟨2024, 3, 15⟩,
          is_active := true } = true) ∧
    (isDue ⟨2024, 3, 15⟩
        { id := 3, user := 1, amount := 40, description := "net",
          category := none, transaction_type := "EXPENSE",
          frequency := "DAILY", start_date := ⟨2024, 3, 1⟩,
          end_date := none, next_occurrence := ⟨2024, 3, 16⟩,
          is_active := true } = false) :=
  ⟨((C7_due_selection ⟨2024, 3, 15⟩ noFail
      { id := 2, user := 1, amount := 40, description := "net",
        category := none, transaction_type := "EXPENSE",
        frequency := "DAILY", start_date := ⟨2024, 3, 1⟩,
        end_date := none, next_occurrence := ⟨2024, 3, 15⟩,
        is_active := true } rfl).1 rfl).1,
   ((C7_due_selection ⟨2024, 3, 15⟩ noFail
      { id := 3, user := 1, amount := 40, description := "net",
        category := none, transaction_type := "EXPENSE",
        frequency := "DAILY", start_date := ⟨2024, 3, 1⟩,
        end_date := none, next_occurrence := ⟨2024, 3, 16⟩,
        is_active := true } rfl).2 (by decide)).1⟩

/-- One processing step never moves the cursor below the start date: either
the row is left untouched (failure paths), or the cursor moves strictly
forward (`calc_blt`), or only `is_active` is cleared. -/
theorem processOne_start_le (fl : StoreFail) (r : RecDef)
    (h : r.start_date.ble r.next_occurrence = true) :
    (processOne fl r).1.start_date.ble (processOne fl r).1.next_occurrence = true := by
  unfold processOne
  cases hcf : fl.createFails
  · simp only [Bool.false_eq_true, if_false]
    rcases hc : calculate_next_occurrence r.frequency r.next_occurrence with e | nd
    · exact h
    · cases hsv : fl.saveFails
      · simp only [Bool.false_eq_true, if_false]
        rcases nd with _ | d
        · exact h
        · have hlt := calc_blt r.frequency r.next_occurrence d hc
          rcases hend : r.end_date with _ | e
          · exact Date.ble_blt_trans h hlt
          · by_cases hle : d.ble e = true
            · simp only [hle, if_true]
              exact Date.ble_blt_trans h hlt
            · simp only [hle, if_false]
              exact h
      · simp only [if_true]
        exact h
  · simp only [if_true]
    exact h

/-- C10: a pass preserves the invariant `start_date ≤ next_occurrence` on
every definition row: the advance step only moves the cursor strictly
forward, terminate and the failure paths leave it where it was. -/
theorem C10_invariant (today : Date) (fail : Nat → StoreFail) (defs : List RecDef)
    (h : ∀ r ∈ defs, r.start_date.ble r.next_occurrence = true) :
    ∀ r ∈ (runPass today fail defs).1,
      r.start_date.ble r.next_occurrence = true := by
  induction defs with
  | nil => simp [runPass]
  | cons a rest ih =>
      have ha := h a (List.mem_cons_self a rest)
      have hrest : ∀ x ∈ rest, x.start_date.ble x.next_occurrence = true :=
        fun x hx => h x (List.mem_cons_of_mem a hx)
      intro r hr
      by_cases hd : isDue today a = true
      · simp only [runPass, hd, if_true, List.mem_cons] at hr
        rcases hr with rfl | hr
        · exact processOne_start_le _ _ ha
        · exact ih hrest r hr
      · simp only [runPass, hd, Bool.false_eq_true, if_false, List.mem_cons] at hr
        rcases hr with rfl | hr
        · exact ha
        · exact ih hrest r hr

/-- Witness for C10 on a one-row store whose cursor sits on its start date. -/
theorem C10_invariant_witness :
    (∀ r ∈ ([{ id := 8, user := 1, amount := 10, description := "w",
               category := none, transaction_type := "EXPENSE",
               frequency := "DAILY", start_date := ⟨2024, 1, 1⟩,
               end_date := none, next_occurrence := ⟨2024, 1, 1⟩,
               is_active := true }] : List RecDef),
        r.start_date.ble r.next_occurrence = true) ∧
    (∀ r ∈ (runPass ⟨2024, 1, 1⟩ noFail
        [{ id := 8, user := 1, amount := 10, description := "w",
           category := none, transaction_type := "EXPENSE",
           frequency := "DAILY", start_date := ⟨2024, 1, 1⟩,
           end_date := none, next_occurrence := ⟨2024, 1, 1⟩,
           is_active := true }]).1,
        r.start_date.ble r.next_occurrence = true) :=
  ⟨by decide,
   C10_invariant ⟨2024, 1, 1⟩ noFail
     [{ id := 8, user := 1, amount := 10, description := "w",
        category := none, transaction_type := "EXPENSE",
        frequency := "DAILY", start_date := ⟨2024, 1, 1⟩,
        end_date := none, next_occurrence := ⟨2024, 1, 1⟩,
        is_active := true }] (by decide)⟩

/-! ### Outcome lemmas for one definition's try-block -/

/-- If `recurring.save()` raises, the definition row keeps its old values and
the body counts as an error — but the transaction row created at lines 26–35
has already been committed and stays. -/
theorem processOne_saveFail (r : RecDef) :
    processOne ⟨false, true⟩ r = (r, some (mkTxn r), false) := by
  unfold processOne
  rcases hc : calculate_next_occurrence r.frequency r.next_occurrence with e | nd <;> simp

/-- With no store failure, a body whose advance computation returns (rather
than raises) creates the transaction and completes successfully. -/
theorem processOne_ok (r : RecDef) (nd : Option Date)
    (hc : calculate_next_occurrence r.frequency r.next_occurrence = .ok nd) :
    (processOne ⟨false, false⟩ r).2.1 = some (mkTxn r) ∧
    (processOne ⟨false, false⟩ r).2.2 = true := by
  unfold processOne
  rw [hc]
  rcases nd with _ | d <;> simp

/-- With no store failure and `calculate_next_occurrence` returning `None`,
the body deactivates the row and still counts as processed. -/
theorem processOne_none (r : RecDef)
    (hc : calculate_next_occurrence r.frequency r.next_occurrence = .ok none) :
    processOne ⟨false, false⟩ r = ({ r with is_active := false }, some (mkTxn r), true) := by
  unfold processOne
  rw [hc]
  simp

/-- With no store failure and a computed next date `d`, the body applies the
end-date rule of lines 40–46 and counts as processed. -/
theorem processOne_some (r : RecDef) (d : Date)
    (hc : calculate_next_occurrence r.frequency r.next_occurrence = .ok (some d)) :
    processOne ⟨false, false⟩ r =
      ((match r.end_date with
        | none => { r with next_occurrence := d }
        | some e =>
            if d.ble e then { r with next_occurrence := d }
            else { r with is_active := false }),
       some (mkTxn r), true) := by
  unfold processOne
  rw [hc]
  simp

/-- A non-due row is left untouched and produces nothing. -/
theorem runPass_notDue (today : Date) (fail : Nat → StoreFail) (x : RecDef)
    (h : isDue today x = false) :
    runPass today fail [x] = ([x], [], ⟨0, []⟩) := by
  simp [runPass, h]

/-- Three identical daily definitions due 2024-01-01, the second one's
`recurring.save()` failing. -/
def c2def (i : Nat) : RecDef :=
  { id := i, user := 1, amount := 100, description := "sub",
    category := none, transaction_type := "EXPENSE",
    frequency := "DAILY", start_date := ⟨2024, 1, 1⟩,
    end_date := none, next_occurrence := ⟨2024, 1, 1⟩, is_active := true }

def c2fail : Nat → StoreFail := fun i => ⟨false, decide (i = 2)⟩

/-- C2 fails on the code: with 3 due definitions where the store rejects the
2nd one's advance write, the report does show 2 processed and 1 error and the
2nd row's `next_occurrence`/`is_active` are unchanged — but processing is NOT
atomic: the transaction row for the 2nd definition has already been created
(3 transaction rows exist), contradicting "no MaterializedTransaction record
is created for it". -/
theorem C2_counterexample :
    (handle ⟨2024, 1, 1⟩ c2fail ⟨[c2def 1, c2def 2, c2def 3], []⟩).2 = ⟨2, [2]⟩ ∧
    (handle ⟨2024, 1, 1⟩ c2fail ⟨[c2def 1, c2def 2, c2def 3], []⟩).1.defs =
      [{ c2def 1 with next_occurrence := ⟨2024, 1, 2⟩ }, c2def 2,
       { c2def 3 with next_occurrence := ⟨2024, 1, 2⟩ }] ∧
    (handle ⟨2024, 1, 1⟩ c2fail ⟨[c2def 1, c2def 2, c2def 3], []⟩).1.txns =
      [mkTxn (c2def 1), mkTxn (c2def 2), mkTxn (c2def 3)] :=
  ⟨rfl, rfl, rfl⟩

/-- C2 amended: when the store rejects the advance (`save`) write for the 2nd
of 3 due definitions, the report shows 2 processed and the 2nd definition's
id as the one error, the 2nd row keeps its old `next_occurrence`/`is_active`,
and the other two definitions are still processed — but the 2nd definition's
already-created transaction row remains (no per-definition rollback). -/
theorem C2_amended (today : Date) (a b c : RecDef) (fail : Nat → StoreFail)
    (na nc : Option Date)
    (ha : isDue today a = true) (hb : isDue today b = true)
    (hc : isDue today c = true)
    (hfa : fail a.id = ⟨false, false⟩) (hfb : fail b.id = ⟨false, true⟩)
    (hfc : fail c.id = ⟨false, false⟩)
    (hca : calculate_next_occurrence a.frequency a.next_occurrence = .ok na)
    (hcc : calculate_next_occurrence c.frequency c.next_occurrence = .ok nc) :
    (runPass today fail [a, b, c]).2.2 = ⟨2, [b.id]⟩ ∧
    (runPass today fail [a, b, c]).2.1 = [mkTxn a, mkTxn b, mkTxn c] ∧
    (runPass today fail [a, b, c]).1 =
      [(processOne ⟨false, false⟩ a).1, b, (processOne ⟨false, false⟩ c).1] := by
  simp only [runPass, ha, hb, hc, if_true, hfa, hfb, hfc, processOne_saveFail b]
  simp [Option.toList, (processOne_ok a na hca).1, (processOne_ok a na hca).2,
        (processOne_ok c nc hcc).1, (processOne_ok c nc hcc).2]

/-- Witness for C2 amended, at the concrete three-definition scenario. -/
theorem C2_amended_witness :
    (isDue ⟨2024, 1, 1⟩ (c2def 2) = true ∧ c2fail 2 = ⟨false, true⟩) ∧
    (runPass ⟨2024, 1, 1⟩ c2fail [c2def 1, c2def 2, c2def 3]).2.2 = ⟨2, [2]⟩ :=
  ⟨⟨by decide, rfl⟩,
   (C2_amended ⟨2024, 1, 1⟩ (c2def 1) (c2def 2) (c2def 3) c2fail
     (some ⟨2024, 1, 2⟩) (some ⟨2024, 1, 2⟩)
     (by decide) (by decide) (by decide) rfl rfl rfl rfl rfl).1⟩

/-- A frequency string outside the closed enum falls through every branch of
`calculate_next_occurrence` and returns `None` (line 113). -/
theorem calc_unknown (f : String) (d : Date)
    (h1 : f ≠ "DAILY") (h2 : f ≠ "WEEKLY") (h3 : f ≠ "BIWEEKLY")
    (h4 : f ≠ "MONTHLY") (h5 : f ≠ "QUARTERLY") (h6 : f ≠ "YEARLY") :
    calculate_next_occurrence f d = .ok none := by
  simp [calculate_next_occurrence, h1, h2, h3, h4, h5, h6]

/-- A due definition carrying a frequency outside the enum. -/
def c4bad : RecDef :=
  { id := 9, user := 1, amount := 30, description := "gym",
    category := none, transaction_type := "EXPENSE",
    frequency := "HOURLY", start_date := ⟨2024, 1, 1⟩,
    end_date := none, next_occurrence := ⟨2024, 1, 5⟩, is_active := true }

/-- C4 fails on the code: the definition with frequency `"HOURLY"` IS
terminated (`is_active` ends false) and the pass is not aborted, but it is
NOT recorded as an error — the report shows `processed_count = 1` with an
empty error list, and a transaction row is still materialized for it. -/
theorem C4_counterexample :
    (handle ⟨2024, 1, 5⟩ noFail ⟨[c4bad], []⟩).2 = ⟨1, []⟩ ∧
    (handle ⟨2024, 1, 5⟩ noFail ⟨[c4bad], []⟩).1.defs =
      [{ c4bad with is_active := false }] ∧
    (handle ⟨2024, 1, 5⟩ noFail ⟨[c4bad], []⟩).1.txns = [mkTxn c4bad] :=
  ⟨rfl, rfl, rfl⟩

/-- C4 amended: a due definition whose frequency lies outside the closed enum
is terminated (`is_active := false`, cursor untouched) and the remaining
definitions are still processed; however the pass does not record it as an
error — it materializes a transaction for it and counts it among the
successfully processed definitions (empty error list). -/
theorem C4_amended (today : Date) (fail : Nat → StoreFail) (r s : RecDef)
    (ns : Option Date)
    (h1 : r.frequency ≠ "DAILY") (h2 : r.frequency ≠ "WEEKLY")
    (h3 : r.frequency ≠ "BIWEEKLY") (h4 : r.frequency ≠ "MONTHLY")
    (h5 : r.frequency ≠ "QUARTERLY") (h6 : r.frequency ≠ "YEARLY")
    (hdr : isDue today r = true) (hds : isDue today s = true)
    (hfr : fail r.id = ⟨false, false⟩) (hfs : fail s.id = ⟨false, false⟩)
    (hcs : calculate_next_occurrence s.frequency s.next_occurrence = .ok ns) :
    (runPass today fail [r, s]).1 =
      [{ r with is_active := false }, (processOne ⟨false, false⟩ s).1] ∧
    (runPass today fail [r, s]).2.1 = [mkTxn r, mkTxn s] ∧
    (runPass today fail [r, s]).2.2 = ⟨2, []⟩ := by
  have hcr := calc_unknown r.frequency r.next_occurrence h1 h2 h3 h4 h5 h6
  simp only [runPass, hdr, hds, if_true, hfr, hfs, processOne_none r hcr]
  simp [Option.toList, (processOne_ok s ns hcs).1, (processOne_ok s ns hcs).2]

/-- Witness for C4 amended: the `"HOURLY"` definition followed by a healthy
DAILY one; the report counts both as processed with no error. -/
theorem C4_amended_witness :
    (isDue ⟨2024, 1, 5⟩ c4bad = true ∧ c4bad.frequency = "HOURLY") ∧
    (runPass ⟨2024, 1, 5⟩ noFail
      [c4bad,
       { id := 10, user := 1, amount := 5, description := "coffee",
         category := none, transaction_type := "EXPENSE",
         frequency := "DAILY", start_date := ⟨2024, 1, 1⟩,
         end_date := none, next_occurrence := ⟨2024, 1, 5⟩,
         is_active := true }]).2.2 = ⟨2, []⟩ :=
  ⟨⟨by decide, rfl⟩,
   (C4_amended ⟨2024, 1, 5⟩ noFail c4bad
     { id := 10, user := 1, amount := 5, description := "coffee",
       category := none, transaction_type := "EXPENSE",
       frequency := "DAILY", start_date := ⟨2024, 1, 1⟩,
       end_date := none, next_occurrence := ⟨2024, 1, 5⟩,
       is_active := true } (some ⟨2024, 1, 6⟩)
     (by decide) (by decide) (by decide) (by decide) (by decide) (by decide)
     (by decide) (by decide) rfl rfl rfl).2.2⟩

/-- A DAILY definition whose cursor lags one day behind the processing date. -/
def c3lag : RecDef :=
  { id := 11, user := 1, amount := 12, description := "paper",
    category := none, transaction_type := "EXPENSE",
    frequency := "DAILY", start_date := ⟨2024, 1, 1⟩,
    end_date := none, next_occurrence := ⟨2024, 1, 1⟩, is_active := true }

/-- C3 fails on the code: the engine advances one period per pass, so for a
definition whose cursor lags behind `asOf` (here `next_occurrence =
2024-01-01`, `asOf = 2024-01-02`), the first — fully committed, error-free —
run advances the cursor only to 2024-01-02, which is still due, and the
second run at the same `asOf` materializes a second transaction. -/
theorem C3_counterexample :
    (handle ⟨2024, 1, 2⟩ noFail ⟨[c3lag], []⟩).2.errors = [] ∧
    (handle ⟨2024, 1, 2⟩ noFail ⟨[c3lag], []⟩).1.txns.length = 1 ∧
    (handle ⟨2024, 1, 2⟩ noFail
        ((handle ⟨2024, 1, 2⟩ noFail ⟨[c3lag], []⟩).1)).1.txns.length = 2 :=
  ⟨rfl, rfl, rfl⟩

/-- C3 amended: the second run at the same `asOf` materializes nothing
additional, provided the definition's cursor equals `asOf` when the first run
processes it (no backlog) and the first run commits without error; a lagging
cursor is caught up only one period per pass and is materialized again. -/
theorem C3_amended (asOf : Date) (r : RecDef)
    (hact : r.is_active = true) (hnext : r.next_occurrence = asOf)
    (hok : (handle asOf noFail ⟨[r], []⟩).2.errors = []) :
    (handle asOf noFail ((handle asOf noFail ⟨[r], []⟩).1)).1.txns =
      (handle asOf noFail ⟨[r], []⟩).1.txns ∧
    (handle asOf noFail ((handle asOf noFail ⟨[r], []⟩).1)).2.processed_count = 0 := by
  have hdue : isDue asOf r = true := by
    unfold isDue
    rw [hact, hnext, Date.ble_refl]
    rfl
  rcases hcalc : calculate_next_occurrence r.frequency r.next_occurrence with e | nd
  · -- the advance step raised: the first run reported an error, against hok
    exfalso
    have herr : (handle asOf noFail ⟨[r], []⟩).2.errors = [r.id] := by
      simp [handle, runPass, hdue, noFail, processOne, hcalc]
    rw [herr] at hok
    cases hok
  · rcases nd with _ | d
    · -- frequency outside the enum: the row is deactivated, nothing due next
      have h1 : handle asOf noFail ⟨[r], []⟩ =
          (⟨[{ r with is_active := false }], [mkTxn r]⟩, ⟨1, []⟩) := by
        simp [handle, runPass, hdue, noFail, processOne_none r hcalc]
      rw [h1]
      have hnd : isDue asOf { r with is_active := false } = false := by
        simp [isDue]
      simp [handle, runPass_notDue _ _ _ hnd]
    · -- normal advance: the new cursor is strictly after asOf
      have hlt : asOf.blt d = true := hnext ▸ calc_blt r.frequency r.next_occurrence d hcalc
      have hble : d.ble asOf = false := Date.ble_eq_false_of_blt hlt
      rcases hend : r.end_date with _ | e
      · have h1 : handle asOf noFail ⟨[r], []⟩ =
            (⟨[{ r with next_occurrence := d }], [mkTxn r]⟩, ⟨1, []⟩) := by
          simp [handle, runPass, hdue, noFail, processOne_some r d hcalc, hend]
        rw [h1]
        have hnd : isDue asOf { r with next_occurrence := d } = false := by
          simp [isDue, hble]
        simp [handle, runPass_notDue _ _ _ hnd]
      · by_cases hle : d.ble e = true
        · have h1 : handle asOf noFail ⟨[r], []⟩ =
              (⟨[{ r with next_occurrence := d }], [mkTxn r]⟩, ⟨1, []⟩) := by
            simp [handle, runPass, hdue, noFail, processOne_some r d hcalc, hend, hle]
          rw [h1]
          have hnd : isDue asOf { r with next_occurrence := d } = false := by
            simp [isDue, hble]
          simp [handle, runPass_notDue _ _ _ hnd]
        · have h1 : handle asOf noFail ⟨[r], []⟩ =
              (⟨[{ r with is_active := false }], [mkTxn r]⟩, ⟨1, []⟩) := by
            simp [handle, runPass, hdue, noFail, processOne_some r d hcalc, hend, hle]
          rw [h1]
          have hnd : isDue asOf { r with is_active := false } = false := by
            simp [isDue]
          simp [handle, runPass_notDue _ _ _ hnd]

/-- Witness for C3 amended: a DAILY definition due exactly on `asOf`; the
second run leaves the transaction list unchanged. -/
theorem C3_amended_witness :
    ((Date.mk 2024 1 2).blt ⟨2024, 1, 3⟩ = true) ∧
    (handle ⟨2024, 1, 2⟩ noFail
        ((handle ⟨2024, 1, 2⟩ noFail
          ⟨[{ id := 12, user := 1, amount := 12, description := "paper",
              category := none, transaction_type := "EXPENSE",
              frequency := "DAILY", start_date := ⟨2024, 1, 1⟩,
              end_date := none, next_occurrence := ⟨2024, 1, 2⟩,
              is_active := true }], []⟩).1)).1.txns =
      (handle ⟨2024, 1, 2⟩ noFail
        ⟨[{ id := 12, user := 1, amount := 12, description := "paper",
            category := none, transaction_type := "EXPENSE",
            frequency := "DAILY", start_date := ⟨2024, 1, 1⟩,
            end_date := none, next_occurrence := ⟨2024, 1, 2⟩,
            is_active := true }], []⟩).1.txns :=
  ⟨by decide,
   (C3_amended ⟨2024, 1, 2⟩
     { id := 12, user := 1, amount := 12, description := "paper",
       category := none, transaction_type := "EXPENSE",
       frequency := "DAILY", start_date := ⟨2024, 1, 1⟩,
       end_date := none, next_occurrence := ⟨2024, 1, 2⟩,
       is_active := true } rfl rfl rfl).1⟩
